import Mathlib

/-!
Verification of the Postmark template client (`src/main.go`).

The repository is a thin HTTP/JSON client: six functions (`CreateTemplate`,
`GetTemplate`, `UpdateTemplate`, `DeleteTemplate`, `GetTemplates`,
`ValidateTemplate`), each of which builds one HTTP request, sends it, checks
the transport status, optionally JSON-decodes the body, optionally checks an
embedded error code, and returns a Go-style `(value, error)` pair.

Shallow embedding conventions:
* Go `int`/`int64` are modelled as `Int` (no claim exercises 64-bit overflow
  or JSON number-range errors).
* A JSON document is the inductive `Json`; an HTTP response body is either a
  well-formed JSON document or raw non-JSON text (`RespBody`), which models
  `encoding/json`'s split between syntax errors and shape errors.
* `encoding/json` marshalling of the three structs is translated tag by tag
  (`omitempty` omits the field exactly at the Go zero value); decoding starts
  from the zero value, processes object members in order (later duplicates
  overwrite), ignores unknown keys, treats `null` as a no-op, and fails on a
  type mismatch, as `encoding/json` does.  Key matching is modelled as exact
  match (the case-insensitive fallback of `encoding/json` is not exercised by
  any claim).
* Go `error` results are the inductive `GoErr`, one constructor per
  `fmt.Errorf` site, with `GoErr.message` reproducing the format string.
* A nil slice / nil pointer is `Option.none`; each operation's response
  handling is a pure function of the `HttpResponse`, returning exactly the
  pair the Go function returns.
-/

/-- A JSON value.  Numbers are modelled as integers: every number on this
client's wire (`templateID`, `errorCode`, `totalCount`, `offset`, `count`) is
integral. -/
inductive Json where
  | null : Json
  | bool (b : Bool) : Json
  | num (n : Int) : Json
  | str (s : String) : Json
  | arr (elems : List Json) : Json
  | obj (members : List (String × Json)) : Json
deriving Repr

/-- Lower-case hex digit, as `encoding/json` uses in `\u00XX` escapes. -/
def hexDigitChar (n : Nat) : Char :=
  if n < 10 then Char.ofNat (48 + n) else Char.ofNat (87 + n % 16)

/-- Escape one character the way Go's `encoding/json` encoder does by
default: quote, backslash, the three HTML-sensitive characters, and control
characters. -/
def escapeChar (c : Char) : String :=
  if c = '"' then "\\\""
  else if c = '\\' then "\\\\"
  else if c = '\n' then "\\n"
  else if c = '\r' then "\\r"
  else if c = '\t' then "\\t"
  else if c = '<' then "\\u003c"
  else if c = '>' then "\\u003e"
  else if c = '&' then "\\u0026"
  else if c.toNat < 32 then
    "\\u00" ++ String.singleton (hexDigitChar (c.toNat / 16)) ++
      String.singleton (hexDigitChar (c.toNat % 16))
  else String.singleton c

def escapeString (s : String) : String :=
  s.data.foldl (fun acc c => acc ++ escapeChar c) ""

mutual

/-- Byte-level rendering of a JSON value, in the compact style `json.Marshal`
produces (no whitespace, members in order). -/
def renderJson : Json → String
  | .null => "null"
  | .bool b => if b then "true" else "false"
  | .num n => toString n
  | .str s => "\"" ++ escapeString s ++ "\""
  | .arr elems => "[" ++ renderJsonElems elems ++ "]"
  | .obj members => "\x7b" ++ renderJsonMembers members ++ "\x7d"

def renderJsonElems : List Json → String
  | [] => ""
  | [v] => renderJson v
  | v :: rest => renderJson v ++ "," ++ renderJsonElems rest

def renderJsonMembers : List (String × Json) → String
  | [] => ""
  | [(k, v)] => "\"" ++ escapeString k ++ "\":" ++ renderJson v
  | (k, v) :: rest =>
      "\"" ++ escapeString k ++ "\":" ++ renderJson v ++ "," ++
        renderJsonMembers rest

end

/-- The Go struct `Template` (src/main.go:14-22), with its `json` tags recorded
separately in `marshalTemplate` / `Template.setField`. -/
structure Template where
  TemplateID : Int
  Name : String
  Subject : String
  HtmlBody : String
  TextBody : String
  Alias : String
  Active : Bool
deriving Repr, DecidableEq

/-- The Go zero value of `Template`. -/
def Template.zero : Template :=
  { TemplateID := 0, Name := "", Subject := "", HtmlBody := "", TextBody := ""
    Alias := "", Active := false }

/-- The Go struct `TemplatesResponse` (src/main.go:25-28).  `Templates` is a Go
slice, which may be nil: `none` models the nil slice. -/
structure TemplatesResponse where
  Templates : Option (List Template)
  TotalCount : Int
deriving Repr, DecidableEq

def TemplatesResponse.zero : TemplatesResponse :=
  { Templates := none, TotalCount := 0 }

/-- The Go struct `PostmarkResponse` (src/main.go:31-35). -/
structure PostmarkResponse where
  TemplateID : Int
  ErrorCode : Int
  Message : String
deriving Repr, DecidableEq

def PostmarkResponse.zero : PostmarkResponse :=
  { TemplateID := 0, ErrorCode := 0, Message := "" }

/-- The member list `json.Marshal` produces for a `Template`: struct-field
order, `templateID`/`alias`/`active` carry `omitempty` and are dropped at
their zero values (`0`, `""`, `false`); the four string bodies are always
present. -/
def templateMembers (t : Template) : List (String × Json) :=
  (if t.TemplateID ≠ 0 then [("templateID", Json.num t.TemplateID)] else []) ++
  [("name", Json.str t.Name), ("subject", Json.str t.Subject),
   ("htmlBody", Json.str t.HtmlBody), ("textBody", Json.str t.TextBody)] ++
  (if t.Alias ≠ "" then [("alias", Json.str t.Alias)] else []) ++
  (if t.Active then [("active", Json.bool t.Active)] else [])

/-- Marshalling `json.Marshal(template)` of a `Template`. -/
def marshalTemplate (t : Template) : Json :=
  Json.obj (templateMembers t)

/-- Marshalling of a `PostmarkResponse` (used by the spec-modelled test
double); none of its tags carries `omitempty`. -/
def marshalPostmarkResponse (r : PostmarkResponse) : Json :=
  Json.obj [("templateID", Json.num r.TemplateID),
            ("errorCode", Json.num r.ErrorCode),
            ("message", Json.str r.Message)]

/-- Process one object member into a `Template` being decoded: `null` is a
no-op, a matching key of the right type sets the field, a matching key of the
wrong type is an unmarshal error (`none`), an unknown key is ignored. -/
def Template.setField (t : Template) (k : String) (v : Json) : Option Template :=
  if k = "templateID" then
    match v with
    | .null => some t
    | .num n => some { t with TemplateID := n }
    | _ => none
  else if k = "name" then
    match v with
    | .null => some t
    | .str s => some { t with Name := s }
    | _ => none
  else if k = "subject" then
    match v with
    | .null => some t
    | .str s => some { t with Subject := s }
    | _ => none
  else if k = "htmlBody" then
    match v with
    | .null => some t
    | .str s => some { t with HtmlBody := s }
    | _ => none
  else if k = "textBody" then
    match v with
    | .null => some t
    | .str s => some { t with TextBody := s }
    | _ => none
  else if k = "alias" then
    match v with
    | .null => some t
    | .str s => some { t with Alias := s }
    | _ => none
  else if k = "active" then
    match v with
    | .null => some t
    | .bool b => some { t with Active := b }
    | _ => none
  else some t

/-- Fold a member list through a field-setter, aborting at the first
mismatch — the shape of `encoding/json`'s object decoding. -/
def decodeMembers (set : α → String → Json → Option α) :
    α → List (String × Json) → Option α
  | a, [] => some a
  | a, (k, v) :: rest =>
      match set a k v with
      | some a' => decodeMembers set a' rest
      | none => none

/-- Decoding `json.Decode` into `var template Template`: `null` leaves the
zero value, an object folds its members over the zero value, anything else
is an unmarshal error. -/
def decodeTemplate : Json → Option Template
  | .null => some Template.zero
  | .obj members => decodeMembers Template.setField Template.zero members
  | _ => none

def PostmarkResponse.setField (r : PostmarkResponse) (k : String) (v : Json) :
    Option PostmarkResponse :=
  if k = "templateID" then
    match v with
    | .null => some r
    | .num n => some { r with TemplateID := n }
    | _ => none
  else if k = "errorCode" then
    match v with
    | .null => some r
    | .num n => some { r with ErrorCode := n }
    | _ => none
  else if k = "message" then
    match v with
    | .null => some r
    | .str s => some { r with Message := s }
    | _ => none
  else some r

/-- Decoding `json.Decode` into `var postmarkResponse PostmarkResponse`. -/
def decodePostmarkResponse : Json → Option PostmarkResponse
  | .null => some PostmarkResponse.zero
  | .obj members => decodeMembers PostmarkResponse.setField PostmarkResponse.zero members
  | _ => none

/-- Decode a JSON array element-wise into a `[]Template`, failing on the
first element of the wrong shape. -/
def decodeTemplateList : List Json → Option (List Template)
  | [] => some []
  | j :: rest =>
      match decodeTemplate j with
      | some t =>
          match decodeTemplateList rest with
          | some ts => some (t :: ts)
          | none => none
      | none => none

def TemplatesResponse.setField (r : TemplatesResponse) (k : String) (v : Json) :
    Option TemplatesResponse :=
  if k = "templates" then
    match v with
    | .null => some r
    | .arr elems =>
        match decodeTemplateList elems with
        | some ts => some { r with Templates := some ts }
        | none => none
    | _ => none
  else if k = "totalCount" then
    match v with
    | .null => some r
    | .num n => some { r with TotalCount := n }
    | _ => none
  else some r

/-- Decoding `json.Decode` into `var templatesResponse TemplatesResponse`. -/
def decodeTemplatesResponse : Json → Option TemplatesResponse
  | .null => some TemplatesResponse.zero
  | .obj members => decodeMembers TemplatesResponse.setField TemplatesResponse.zero members
  | _ => none

/-- One `fmt.Errorf` site per constructor.  The marshal/request-build/send
failure sites of the Go code depend on the runtime (`net/http`) rather than
on the response, so the response-handling functions below never produce them;
they are kept so that `GoErr` covers every error the six functions can
return. -/
inductive GoErr where
  | marshalErr (cause : String) : GoErr
  | requestErr (cause : String) : GoErr
  | sendErr (cause : String) : GoErr
  | statusErr (status : Nat) (bodyText : String) : GoErr
  | decodeErr (cause : String) : GoErr
  | remoteErr (what : String) (msg : String) : GoErr
deriving Repr, DecidableEq

/-- The text each `fmt.Errorf` call produces. -/
def GoErr.message : GoErr → String
  | .marshalErr c => "failed to marshal template: " ++ c
  | .requestErr c => "failed to create request: " ++ c
  | .sendErr c => "failed to send request: " ++ c
  | .statusErr status bodyText =>
      "unexpected status code: " ++ toString status ++ ", response: " ++ bodyText
  | .decodeErr c => "failed to decode response: " ++ c
  | .remoteErr what msg => "failed to " ++ what ++ " template: " ++ msg

/-- An HTTP response body: either a well-formed JSON document or raw text
that is not JSON.  This models the split `encoding/json` makes between a
syntax error (`rawBody`) and a document of the wrong shape. -/
inductive RespBody where
  | jsonBody (j : Json) : RespBody
  | rawBody (s : String) : RespBody
deriving Repr

/-- The literal body text `string(ioutil.ReadAll(resp.Body))`. -/
def RespBody.text : RespBody → String
  | .jsonBody j => renderJson j
  | .rawBody s => s

structure HttpResponse where
  statusCode : Nat
  body : RespBody
deriving Repr

/-- Decoding `json.NewDecoder(resp.Body).Decode(&x)`: fails on non-JSON text
and on a document of the wrong shape. -/
def decodeJsonBody (dec : Json → Option α) : RespBody → Except String α
  | .rawBody s => .error ("invalid character in body: " ++ s)
  | .jsonBody j =>
      match dec j with
      | some a => .ok a
      | none => .error "json: cannot unmarshal value into Go value"

/-- An outbound request as the Go code assembles it: method, URL, the headers
set via `req.Header.Set`, and the marshalled JSON payload when there is
one. -/
structure HttpRequest where
  method : String
  url : String
  headers : List (String × String)
  body : Option Json
deriving Repr

/-- Request built by `CreateTemplate` (src/main.go:38-52). -/
def mkCreateTemplateRequest (apiToken : String) (template : Template) : HttpRequest :=
  { method := "POST"
    url := "https://api.postmarkapp.com/templates"
    headers := [("Accept", "application/json"),
                ("Content-Type", "application/json"),
                ("X-Postmark-Server-Token", apiToken)]
    body := some (marshalTemplate template) }

/-- Request built by `GetTemplate` (src/main.go:80-89). -/
def mkGetTemplateRequest (apiToken : String) (templateID : Int) : HttpRequest :=
  { method := "GET"
    url := "https://api.postmarkapp.com/templates/" ++ toString templateID
    headers := [("Accept", "application/json"),
                ("X-Postmark-Server-Token", apiToken)]
    body := none }

/-- Request built by `UpdateTemplate` (src/main.go:113-127); the URL is keyed
by the template's own ID. -/
def mkUpdateTemplateRequest (apiToken : String) (template : Template) : HttpRequest :=
  { method := "PUT"
    url := "https://api.postmarkapp.com/templates/" ++ toString template.TemplateID
    headers := [("Accept", "application/json"),
                ("Content-Type", "application/json"),
                ("X-Postmark-Server-Token", apiToken)]
    body := some (marshalTemplate template) }

/-- Request built by `DeleteTemplate` (src/main.go:155-164); note it sets no
Content-Type header. -/
def mkDeleteTemplateRequest (apiToken : String) (templateID : Int) : HttpRequest :=
  { method := "DELETE"
    url := "https://api.postmarkapp.com/templates/" ++ toString templateID
    headers := [("Accept", "application/json"),
                ("X-Postmark-Server-Token", apiToken)]
    body := none }

/-- Request built by `GetTemplates` (src/main.go:183-192): offset and count
travel as query parameters. -/
def mkGetTemplatesRequest (apiToken : String) (offset count : Int) : HttpRequest :=
  { method := "GET"
    url := "https://api.postmarkapp.com/templates?offset=" ++ toString offset ++
           "&count=" ++ toString count
    headers := [("Accept", "application/json"),
                ("X-Postmark-Server-Token", apiToken)]
    body := none }

/-- Request built by `ValidateTemplate` (src/main.go:216-230). -/
def mkValidateTemplateRequest (apiToken : String) (template : Template) : HttpRequest :=
  { method := "POST"
    url := "https://api.postmarkapp.com/templates/validate"
    headers := [("Accept", "application/json"),
                ("Content-Type", "application/json"),
                ("X-Postmark-Server-Token", apiToken)]
    body := some (marshalTemplate template) }

/-- Response handling of `CreateTemplate` (src/main.go:61-77): non-200 is a
status error carrying the raw body text; then the body is decoded as a
`PostmarkResponse`; a nonzero embedded `errorCode` is a remote error carrying
the embedded message; otherwise the server-assigned `templateID` is
returned.  Error paths return `0`, as the Go function does. -/
def createTemplateResponse (resp : HttpResponse) : Int × Option GoErr :=
  if resp.statusCode ≠ 200 then
    (0, some (GoErr.statusErr resp.statusCode resp.body.text))
  else
    match decodeJsonBody decodePostmarkResponse resp.body with
    | .error cause => (0, some (GoErr.decodeErr cause))
    | .ok pr =>
        if pr.ErrorCode ≠ 0 then (0, some (GoErr.remoteErr "create" pr.Message))
        else (pr.TemplateID, none)

/-- Response handling of `GetTemplate` (src/main.go:98-110): non-200 is a
status error; a 200 body is decoded as a `Template` and returned through a
pointer (`some`); error paths return the nil pointer (`none`). -/
def getTemplateResponse (resp : HttpResponse) : Option Template × Option GoErr :=
  if resp.statusCode ≠ 200 then
    (none, some (GoErr.statusErr resp.statusCode resp.body.text))
  else
    match decodeJsonBody decodeTemplate resp.body with
    | .error cause => (none, some (GoErr.decodeErr cause))
    | .ok t => (some t, none)

/-- Response handling of `UpdateTemplate` (src/main.go:136-152): like Create,
with the update wording, and no value returned. -/
def updateTemplateResponse (resp : HttpResponse) : Option GoErr :=
  if resp.statusCode ≠ 200 then
    some (GoErr.statusErr resp.statusCode resp.body.text)
  else
    match decodeJsonBody decodePostmarkResponse resp.body with
    | .error cause => some (GoErr.decodeErr cause)
    | .ok pr =>
        if pr.ErrorCode ≠ 0 then some (GoErr.remoteErr "update" pr.Message)
        else none

/-- Response handling of `DeleteTemplate` (src/main.go:173-179): only the
transport status is inspected; a 200 body is never read. -/
def deleteTemplateResponse (resp : HttpResponse) : Option GoErr :=
  if resp.statusCode ≠ 200 then
    some (GoErr.statusErr resp.statusCode resp.body.text)
  else none

/-- Response handling of `GetTemplates` (src/main.go:201-213): non-200 is a
status error; a 200 body is decoded as a `TemplatesResponse` and only its
`Templates` slice is returned — `TotalCount` is discarded.  Error paths
return the nil slice (`none`). -/
def getTemplatesResponse (resp : HttpResponse) :
    Option (List Template) × Option GoErr :=
  if resp.statusCode ≠ 200 then
    (none, some (GoErr.statusErr resp.statusCode resp.body.text))
  else
    match decodeJsonBody decodeTemplatesResponse resp.body with
    | .error cause => (none, some (GoErr.decodeErr cause))
    | .ok tr => (tr.Templates, none)

/-- Response handling of `ValidateTemplate` (src/main.go:239-245): only the
transport status is inspected; a 200 body is never read or decoded. -/
def validateTemplateResponse (resp : HttpResponse) : Option GoErr :=
  if resp.statusCode ≠ 200 then
    some (GoErr.statusErr resp.statusCode resp.body.text)
  else none

/-- Modelled from the spec: the test double simulating the remote template
API, which the repository does not contain ("requires a test double
simulating the API", spec §8).  It holds the server-side template store: the
next ID to assign and the templates stored so far, keyed by their
server-assigned ID. -/
structure FakeServer where
  nextID : Int
  stored : List (Int × Template)

/-- Modelled from the spec: how the test double answers the client's
requests.  Create (POST to the collection) decodes the payload, stores it
under a fresh server-assigned ID and answers 200 with a zero-error
`PostmarkResponse` carrying that ID; Get (GET to `templates/id` for a stored
id) answers 200 with the stored template, its `templateID` populated; other
requests get a 404. -/
def fakeHandle (s : FakeServer) (req : HttpRequest) : HttpResponse × FakeServer :=
  if req.method = "POST" ∧ req.url = "https://api.postmarkapp.com/templates" then
    match req.body with
    | some payload =>
        match decodeTemplate payload with
        | some t =>
            (⟨200, .jsonBody (marshalPostmarkResponse
                ⟨s.nextID, 0, "OK"⟩)⟩,
             ⟨s.nextID + 1, (s.nextID, t) :: s.stored⟩)
        | none => (⟨422, .rawBody "invalid template payload"⟩, s)
    | none => (⟨422, .rawBody "missing body"⟩, s)
  else if req.method = "GET" then
    match s.stored.find? (fun p =>
        req.url = "https://api.postmarkapp.com/templates/" ++ toString p.1) with
    | some p => (⟨200, .jsonBody (marshalTemplate { p.2 with TemplateID := p.1 })⟩, s)
    | none => (⟨404, .rawBody "template not found"⟩, s)
  else (⟨404, .rawBody "unsupported"⟩, s)

/-- The caller-orchestrated round trip of spec §8: `CreateTemplate` against a
fresh test double, then `GetTemplate` with the ID Create returned, delivering
Get's result (or Create's error). -/
def createThenGet (apiToken : String) (t : Template) :
    Option Template × Option GoErr :=
  let s0 : FakeServer := ⟨1, []⟩
  let step1 := fakeHandle s0 (mkCreateTemplateRequest apiToken t)
  match createTemplateResponse step1.1 with
  | (id, none) =>
      getTemplateResponse (fakeHandle step1.2 (mkGetTemplateRequest apiToken id)).1
  | (_, some e) => (none, some e)

/-- A concrete template used by witnesses. -/
def tEx : Template :=
  { TemplateID := 0, Name := "Password Reset", Subject := "Reset your password"
    HtmlBody := "<p>click</p>", TextBody := "click", Alias := "", Active := false }

/-- A concrete 200 list response reporting `totalCount` 5 around a
one-element page. -/
def respTotal5 : HttpResponse :=
  ⟨200, .jsonBody (Json.obj [("templates", Json.arr [marshalTemplate tEx]),
                             ("totalCount", Json.num 5)])⟩

/-- The same one-element page with `totalCount` 7. -/
def respTotal7 : HttpResponse :=
  ⟨200, .jsonBody (Json.obj [("templates", Json.arr [marshalTemplate tEx]),
                             ("totalCount", Json.num 7)])⟩

/-- A 200 response whose body carries a nonzero embedded error code, as the
simulated API would answer a Delete/Validate of a nonexistent template. -/
def respErr1001 : HttpResponse :=
  ⟨200, .jsonBody (Json.obj [("errorCode", Json.num 1001),
                             ("message", Json.str "Invalid template")])⟩

/-- A 200 answer to a List call whose body carries only an embedded error,
no `templates` and no `totalCount`. -/
def respListErrBody : HttpResponse :=
  ⟨200, .jsonBody (Json.obj [("errorCode", Json.num 402),
                             ("message", Json.str "bad pagination")])⟩

/-- A non-200 response with a non-JSON body. -/
def respUnprocessable : HttpResponse :=
  ⟨422, .rawBody "Zero or negative count parameter"⟩

/-- A 200 response whose body is not the expected JSON shape (a bare
string). -/
def respBadShape : HttpResponse :=
  ⟨200, .jsonBody (Json.str "oops")⟩

/-- A 200 create/update answer: zero error code, server-assigned ID 42. -/
def respCreated42 : HttpResponse :=
  ⟨200, .jsonBody (marshalPostmarkResponse ⟨42, 0, "OK"⟩)⟩

/-- A 200 get answer carrying `tEx` with its server-side ID. -/
def respGotTemplate : HttpResponse :=
  ⟨200, .jsonBody (marshalTemplate { tEx with TemplateID := 42 })⟩

/-! ## Helper lemmas -/

theorem setField_templateID (t : Template) (n : Int) :
    t.setField "templateID" (Json.num n) = some { t with TemplateID := n } := rfl

theorem setField_name (t : Template) (s : String) :
    t.setField "name" (Json.str s) = some { t with Name := s } := rfl

theorem setField_subject (t : Template) (s : String) :
    t.setField "subject" (Json.str s) = some { t with Subject := s } := rfl

theorem setField_htmlBody (t : Template) (s : String) :
    t.setField "htmlBody" (Json.str s) = some { t with HtmlBody := s } := rfl

theorem setField_textBody (t : Template) (s : String) :
    t.setField "textBody" (Json.str s) = some { t with TextBody := s } := rfl

theorem setField_alias (t : Template) (s : String) :
    t.setField "alias" (Json.str s) = some { t with Alias := s } := rfl

theorem setField_active (t : Template) (b : Bool) :
    t.setField "active" (Json.bool b) = some { t with Active := b } := rfl

/-- Marshalling a `Template` and decoding the document back is the identity:
each `omitempty` tag omits exactly the zero value, which is also what the
decoder starts from. -/
theorem decodeTemplate_marshalTemplate (t : Template) :
    decodeTemplate (marshalTemplate t) = some t := by
  obtain ⟨id, nm, su, hb, tb, al, ac⟩ := t
  by_cases hid : id = 0 <;> by_cases hal : al = "" <;> cases ac <;>
    simp [marshalTemplate, templateMembers, decodeTemplate, decodeMembers,
          setField_templateID, setField_name, setField_subject, setField_htmlBody,
          setField_textBody, setField_alias, setField_active, Template.zero, hid, hal]

theorem prSetField_templateID (r : PostmarkResponse) (n : Int) :
    r.setField "templateID" (Json.num n) = some { r with TemplateID := n } := rfl

theorem prSetField_errorCode (r : PostmarkResponse) (n : Int) :
    r.setField "errorCode" (Json.num n) = some { r with ErrorCode := n } := rfl

theorem prSetField_message (r : PostmarkResponse) (s : String) :
    r.setField "message" (Json.str s) = some { r with Message := s } := rfl

theorem decodePostmarkResponse_marshal (r : PostmarkResponse) :
    decodePostmarkResponse (marshalPostmarkResponse r) = some r := by
  obtain ⟨i, e, m⟩ := r
  simp [marshalPostmarkResponse, decodePostmarkResponse, decodeMembers,
        prSetField_templateID, prSetField_errorCode, prSetField_message,
        PostmarkResponse.zero]

/-- Against a fresh test double, Create stores the template under ID 1 and
Get returns it with that ID populated. -/
theorem createThenGet_roundtrip (apiToken : String) (t : Template) :
    createThenGet apiToken t = (some { t with TemplateID := 1 }, none) := by
  simp [createThenGet, mkCreateTemplateRequest, mkGetTemplateRequest, fakeHandle,
        decodeTemplate_marshalTemplate, createTemplateResponse, getTemplateResponse,
        decodeJsonBody, decodePostmarkResponse_marshal, RespBody.text]

theorem trSetField_totalCount (r : TemplatesResponse) (n : Int) :
    r.setField "totalCount" (Json.num n) = some { r with TotalCount := n } := rfl

theorem decodeTemplateList_marshal (ts : List Template) :
    decodeTemplateList (ts.map marshalTemplate) = some ts := by
  induction ts with
  | nil => rfl
  | cons t rest ih => simp [decodeTemplateList, decodeTemplate_marshalTemplate, ih]

theorem trSetField_templates (r : TemplatesResponse) (js : List Json)
    (ts : List Template) (h : decodeTemplateList js = some ts) :
    r.setField "templates" (Json.arr js) = some { r with Templates := some ts } := by
  have step : r.setField "templates" (Json.arr js) =
      (match decodeTemplateList js with
       | some l => some { r with Templates := some l }
       | none => none) := rfl
  rw [step, h]

theorem decodeMembers_append (set : α → String → Json → Option α) (a : α)
    (xs ys : List (String × Json)) :
    decodeMembers set a (xs ++ ys) =
      (decodeMembers set a xs).bind fun a' => decodeMembers set a' ys := by
  induction xs generalizing a with
  | nil => simp [decodeMembers]
  | cons kv rest ih =>
    obtain ⟨k, v⟩ := kv
    simp only [List.cons_append, decodeMembers]
    cases set a k v <;> simp [ih]

/-- An object that spells out `"active": false` explicitly decodes to the
same template as the omitted form. -/
theorem decodeTemplate_explicit_false (t : Template) :
    decodeTemplate (Json.obj (templateMembers { t with Active := false } ++
      [("active", Json.bool false)])) = some { t with Active := false } := by
  have h := decodeTemplate_marshalTemplate { t with Active := false }
  simp only [marshalTemplate, decodeTemplate] at h ⊢
  rw [decodeMembers_append, h]
  simp [decodeMembers, setField_active]

theorem decodeTemplatesResponse_wire (ts : List Template) (n : Int) :
    decodeTemplatesResponse
      (Json.obj [("templates", Json.arr (ts.map marshalTemplate)),
                 ("totalCount", Json.num n)]) =
      some { Templates := some ts, TotalCount := n } := by
  simp [decodeTemplatesResponse, decodeMembers,
        trSetField_templates _ _ _ (decodeTemplateList_marshal ts),
        trSetField_totalCount, TemplatesResponse.zero]

/-- The key list of a marshalled `Template`, with the three `omitempty`
conditionals exposed. -/
theorem templateMembers_keys (t : Template) :
    (templateMembers t).map Prod.fst =
      (if t.TemplateID ≠ 0 then ["templateID"] else []) ++
      ["name", "subject", "htmlBody", "textBody"] ++
      (if t.Alias ≠ "" then ["alias"] else []) ++
      (if t.Active then ["active"] else []) := by
  by_cases h1 : t.TemplateID = 0 <;> by_cases h2 : t.Alias = "" <;>
    cases h3 : t.Active <;> simp [templateMembers, h1, h2, h3]

/-! ## Claim theorems -/

/-- C1, counterexample: a successful List call does not deliver the server's
`totalCount` to the caller.  Two 200 responses that decode to the same
template page but different `totalCount` values (5 and 7) produce identical
results in `GetTemplates`, so the total count reported by the server is not
part of the result delivered to the caller — the Go function returns only
`templatesResponse.Templates` (src/main.go:212). -/
theorem getTemplates_discards_totalCount :
    getTemplatesResponse respTotal5 = getTemplatesResponse respTotal7 ∧
    decodeJsonBody decodeTemplatesResponse respTotal5.body =
      Except.ok { Templates := some [tEx], TotalCount := 5 } ∧
    decodeJsonBody decodeTemplatesResponse respTotal7.body =
      Except.ok { Templates := some [tEx], TotalCount := 7 } :=
  ⟨rfl, rfl, rfl⟩

/-- C1, amended: for every successful List call (HTTP status 200, body
decodes), the result delivered to the caller is exactly the ordered sequence
of Templates from the response's `templates` field; the `totalCount` field is
decoded but discarded. -/
theorem getTemplates_delivers_sequence_only (resp : HttpResponse)
    (tr : TemplatesResponse) (hs : resp.statusCode = 200)
    (hd : decodeJsonBody decodeTemplatesResponse resp.body = Except.ok tr) :
    getTemplatesResponse resp = (tr.Templates, none) := by
  simp [getTemplatesResponse, hs, hd]

theorem getTemplates_delivers_sequence_only_witness :
    getTemplatesResponse respTotal5 = (some [tEx], none) :=
  getTemplates_delivers_sequence_only respTotal5
    { Templates := some [tEx], TotalCount := 5 } rfl rfl

/-- C2: Delete and Validate inspect only the HTTP transport status; every
response with HTTP status 200 makes both operations succeed, whatever the
body contains — including a body with a nonzero embedded error code, as the
witness instantiates. -/
theorem delete_validate_ignore_embedded_error (resp : HttpResponse)
    (h : resp.statusCode = 200) :
    deleteTemplateResponse resp = none ∧ validateTemplateResponse resp = none := by
  simp [deleteTemplateResponse, validateTemplateResponse, h]

theorem delete_validate_ignore_embedded_error_witness :
    deleteTemplateResponse respErr1001 = none ∧
    validateTemplateResponse respErr1001 = none :=
  delete_validate_ignore_embedded_error respErr1001 rfl

/-- C3: for every operation and every response whose HTTP status is not 200,
the operation fails with the transport error, whose message carries the
numeric status code and the raw response body text unparsed, regardless of
the body's content. -/
theorem non200_transport_error (resp : HttpResponse) (h : resp.statusCode ≠ 200) :
    createTemplateResponse resp =
      (0, some (GoErr.statusErr resp.statusCode resp.body.text)) ∧
    getTemplateResponse resp =
      (none, some (GoErr.statusErr resp.statusCode resp.body.text)) ∧
    updateTemplateResponse resp =
      some (GoErr.statusErr resp.statusCode resp.body.text) ∧
    deleteTemplateResponse resp =
      some (GoErr.statusErr resp.statusCode resp.body.text) ∧
    getTemplatesResponse resp =
      (none, some (GoErr.statusErr resp.statusCode resp.body.text)) ∧
    validateTemplateResponse resp =
      some (GoErr.statusErr resp.statusCode resp.body.text) ∧
    (GoErr.statusErr resp.statusCode resp.body.text).message =
      "unexpected status code: " ++ toString resp.statusCode ++
        ", response: " ++ resp.body.text := by
  simp [createTemplateResponse, getTemplateResponse, updateTemplateResponse,
        deleteTemplateResponse, getTemplatesResponse, validateTemplateResponse,
        GoErr.message, h]

theorem non200_transport_error_witness :
    deleteTemplateResponse respUnprocessable =
      some (GoErr.statusErr 422 "Zero or negative count parameter") :=
  (non200_transport_error respUnprocessable (by decide)).2.2.2.1

/-- C4, counterexample: a Validate call answered 200 with body
`errorCode: 1001, message: "Invalid template"` — which decodes successfully
to a nonzero embedded error code — succeeds (`none`) instead of failing with
a Remote Error, because `ValidateTemplate` (src/main.go:239-245) never reads
the body of a 200 response. -/
theorem validate_embedded_error_reported_success :
    decodeJsonBody decodePostmarkResponse respErr1001.body =
      Except.ok { TemplateID := 0, ErrorCode := 1001, Message := "Invalid template" } ∧
    validateTemplateResponse respErr1001 = none :=
  ⟨rfl, rfl⟩

/-- C4, amended: for every Create or Update call whose response has status
200 and whose body decodes successfully, a nonzero embedded error code makes
the operation fail with a Remote Error carrying the embedded message text;
with embedded error code zero, Create succeeds and returns the
server-assigned `templateID` and Update succeeds.  Validate, by contrast,
ignores the embedded error code entirely and succeeds on any 200. -/
theorem create_update_embedded_error (resp : HttpResponse) (pr : PostmarkResponse)
    (hs : resp.statusCode = 200)
    (hd : decodeJsonBody decodePostmarkResponse resp.body = Except.ok pr) :
    (pr.ErrorCode ≠ 0 →
      createTemplateResponse resp = (0, some (GoErr.remoteErr "create" pr.Message)) ∧
      (GoErr.remoteErr "create" pr.Message).message =
        "failed to create template: " ++ pr.Message ∧
      updateTemplateResponse resp = some (GoErr.remoteErr "update" pr.Message) ∧
      (GoErr.remoteErr "update" pr.Message).message =
        "failed to update template: " ++ pr.Message) ∧
    (pr.ErrorCode = 0 →
      createTemplateResponse resp = (pr.TemplateID, none) ∧
      updateTemplateResponse resp = none) ∧
    validateTemplateResponse resp = none := by
  refine ⟨fun hne => ?_, fun hz => ?_, by simp [validateTemplateResponse, hs]⟩ <;>
    simp [createTemplateResponse, updateTemplateResponse, GoErr.message,
          hs, hd, *]

theorem create_update_embedded_error_witness :
    createTemplateResponse respErr1001 =
      (0, some (GoErr.remoteErr "create" "Invalid template")) :=
  ((create_update_embedded_error respErr1001
      { TemplateID := 0, ErrorCode := 1001, Message := "Invalid template" }
      rfl rfl).1 (by decide)).1

/-- C5: for every decoding operation (Create, Get, Update, List) and every
200 response whose body does not parse as the expected JSON shape, the
operation fails with a decode error wrapping the underlying parse failure
text. -/
theorem status200_decode_failure (resp : HttpResponse) (cause : String)
    (hs : resp.statusCode = 200) :
    (decodeJsonBody decodePostmarkResponse resp.body = Except.error cause →
      createTemplateResponse resp = (0, some (GoErr.decodeErr cause)) ∧
      updateTemplateResponse resp = some (GoErr.decodeErr cause)) ∧
    (decodeJsonBody decodeTemplate resp.body = Except.error cause →
      getTemplateResponse resp = (none, some (GoErr.decodeErr cause))) ∧
    (decodeJsonBody decodeTemplatesResponse resp.body = Except.error cause →
      getTemplatesResponse resp = (none, some (GoErr.decodeErr cause))) ∧
    (GoErr.decodeErr cause).message = "failed to decode response: " ++ cause := by
  refine ⟨fun h1 => ?_, fun h2 => ?_, fun h3 => ?_, rfl⟩
  · simp [createTemplateResponse, updateTemplateResponse, hs, h1]
  · simp [getTemplateResponse, hs, h2]
  · simp [getTemplatesResponse, hs, h3]

theorem status200_decode_failure_witness :
    getTemplateResponse respBadShape =
      (none, some (GoErr.decodeErr "json: cannot unmarshal value into Go value")) :=
  (status200_decode_failure respBadShape
      "json: cannot unmarshal value into Go value" rfl).2.1 rfl

/-- C6, counterexample: a List call with `offset = -1` and `count = 0`
(query string shown literally), answered 200 with a body that carries only an
embedded error (`errorCode: 402`), does not fail: `GetTemplates` decodes the
body — the unknown keys are ignored and `templates` defaults to the nil
slice — and returns an empty successful result. -/
theorem getTemplates_error_body_silent_empty_success :
    (mkGetTemplatesRequest "token" (-1) 0).url =
      "https://api.postmarkapp.com/templates?offset=-1&count=0" ∧
    respListErrBody.statusCode = 200 ∧
    getTemplatesResponse respListErrBody = (none, none) :=
  ⟨rfl, rfl, rfl⟩

/-- C6, amended: for every List call with `count = 0` or a negative
`offset`, a non-200 answer fails with the transport error carrying the
status and raw body; an error reported only inside a 200 body is not
detected (see the counterexample), since `GetTemplates` checks no embedded
error code.  Response handling is independent of the offset/count
parameters, which only shape the request URL. -/
theorem getTemplates_bad_params_non200_fails (tok : String) (offset count : Int)
    (resp : HttpResponse) (_hpar : count = 0 ∨ offset < 0)
    (h : resp.statusCode ≠ 200) :
    (mkGetTemplatesRequest tok offset count).url =
      "https://api.postmarkapp.com/templates?offset=" ++ toString offset ++
        "&count=" ++ toString count ∧
    getTemplatesResponse resp =
      (none, some (GoErr.statusErr resp.statusCode resp.body.text)) := by
  exact ⟨rfl, by simp [getTemplatesResponse, h]⟩

theorem getTemplates_bad_params_non200_fails_witness :
    getTemplatesResponse respUnprocessable =
      (none, some (GoErr.statusErr 422 "Zero or negative count parameter")) :=
  (getTemplates_bad_params_non200_fails "token" (-1) 0 respUnprocessable
      (Or.inl rfl) (by decide)).2

/-- C7: for every Template, Create against the spec-modelled test double
followed by Get with the id Create returned yields a Template whose `name`,
`subject`, `htmlBody` and `textBody` equal those of the input. -/
theorem create_get_roundtrip (apiToken : String) (t : Template) :
    ∃ t', createThenGet apiToken t = (some t', none) ∧
      t'.Name = t.Name ∧ t'.Subject = t.Subject ∧
      t'.HtmlBody = t.HtmlBody ∧ t'.TextBody = t.TextBody :=
  ⟨{ t with TemplateID := 1 }, createThenGet_roundtrip apiToken t,
   rfl, rfl, rfl, rfl⟩

/-- C8: the wire form of a `Template` uses only the field names
`templateID`, `name`, `subject`, `htmlBody`, `textBody`, `alias`, `active`;
the four body fields are always present; `templateID`/`alias`/`active`
appear exactly when nonzero / nonempty / true — so a template with
`active = false` serializes with the field absent, identically to the
omitted form — and both the absent and the explicit `"active": false` wire
forms decode back to `Active = false`; a list response is read from the
`templates` and `totalCount` fields. -/
theorem template_wire_field_names :
    (∀ t : Template, (templateMembers t).map Prod.fst ⊆
        ["templateID", "name", "subject", "htmlBody", "textBody", "alias", "active"]) ∧
    (∀ t : Template, "name" ∈ (templateMembers t).map Prod.fst ∧
        "subject" ∈ (templateMembers t).map Prod.fst ∧
        "htmlBody" ∈ (templateMembers t).map Prod.fst ∧
        "textBody" ∈ (templateMembers t).map Prod.fst) ∧
    (∀ t : Template, "templateID" ∈ (templateMembers t).map Prod.fst ↔ t.TemplateID ≠ 0) ∧
    (∀ t : Template, "alias" ∈ (templateMembers t).map Prod.fst ↔ t.Alias ≠ "") ∧
    (∀ t : Template, "active" ∈ (templateMembers t).map Prod.fst ↔ t.Active = true) ∧
    (∀ t : Template,
      decodeTemplate (marshalTemplate { t with Active := false }) =
        some { t with Active := false }) ∧
    (∀ t : Template,
      decodeTemplate (Json.obj (templateMembers { t with Active := false } ++
        [("active", Json.bool false)])) = some { t with Active := false }) ∧
    (∀ (ts : List Template) (n : Int),
      decodeTemplatesResponse
        (Json.obj [("templates", Json.arr (ts.map marshalTemplate)),
                   ("totalCount", Json.num n)]) =
        some { Templates := some ts, TotalCount := n }) := by
  refine ⟨fun t => ?_, fun t => ?_, fun t => ?_, fun t => ?_, fun t => ?_,
          fun t => decodeTemplate_marshalTemplate _,
          fun t => decodeTemplate_explicit_false t,
          fun ts n => decodeTemplatesResponse_wire ts n⟩ <;>
    rw [templateMembers_keys] <;>
    by_cases h1 : t.TemplateID = 0 <;> by_cases h2 : t.Alias = "" <;>
      cases h3 : t.Active <;> simp [h1, h2, h3]

/-- C9: every request of the six operations carries the credential in the
`X-Postmark-Server-Token` header and the `Accept: application/json` header;
the three payload-carrying (mutating) requests — Create, Update, Validate —
additionally carry `Content-Type: application/json`; and the credential
appears in no URL and no body: both are unchanged when the token changes. -/
theorem requests_headers_and_credential (tok tok2 : String) (t : Template)
    (id offset count : Int) :
    (("Accept", "application/json") ∈ (mkCreateTemplateRequest tok t).headers ∧
     ("Content-Type", "application/json") ∈ (mkCreateTemplateRequest tok t).headers ∧
     ("X-Postmark-Server-Token", tok) ∈ (mkCreateTemplateRequest tok t).headers) ∧
    (("Accept", "application/json") ∈ (mkGetTemplateRequest tok id).headers ∧
     ("X-Postmark-Server-Token", tok) ∈ (mkGetTemplateRequest tok id).headers) ∧
    (("Accept", "application/json") ∈ (mkUpdateTemplateRequest tok t).headers ∧
     ("Content-Type", "application/json") ∈ (mkUpdateTemplateRequest tok t).headers ∧
     ("X-Postmark-Server-Token", tok) ∈ (mkUpdateTemplateRequest tok t).headers) ∧
    (("Accept", "application/json") ∈ (mkDeleteTemplateRequest tok id).headers ∧
     ("X-Postmark-Server-Token", tok) ∈ (mkDeleteTemplateRequest tok id).headers) ∧
    (("Accept", "application/json") ∈ (mkGetTemplatesRequest tok offset count).headers ∧
     ("X-Postmark-Server-Token", tok) ∈ (mkGetTemplatesRequest tok offset count).headers) ∧
    (("Accept", "application/json") ∈ (mkValidateTemplateRequest tok t).headers ∧
     ("Content-Type", "application/json") ∈ (mkValidateTemplateRequest tok t).headers ∧
     ("X-Postmark-Server-Token", tok) ∈ (mkValidateTemplateRequest tok t).headers) ∧
    ((mkCreateTemplateRequest tok t).url = (mkCreateTemplateRequest tok2 t).url ∧
     (mkCreateTemplateRequest tok t).body = (mkCreateTemplateRequest tok2 t).body) ∧
    ((mkGetTemplateRequest tok id).url = (mkGetTemplateRequest tok2 id).url ∧
     (mkGetTemplateRequest tok id).body = (mkGetTemplateRequest tok2 id).body) ∧
    ((mkUpdateTemplateRequest tok t).url = (mkUpdateTemplateRequest tok2 t).url ∧
     (mkUpdateTemplateRequest tok t).body = (mkUpdateTemplateRequest tok2 t).body) ∧
    ((mkDeleteTemplateRequest tok id).url = (mkDeleteTemplateRequest tok2 id).url ∧
     (mkDeleteTemplateRequest tok id).body = (mkDeleteTemplateRequest tok2 id).body) ∧
    ((mkGetTemplatesRequest tok offset count).url =
        (mkGetTemplatesRequest tok2 offset count).url ∧
     (mkGetTemplatesRequest tok offset count).body =
        (mkGetTemplatesRequest tok2 offset count).body) ∧
    ((mkValidateTemplateRequest tok t).url = (mkValidateTemplateRequest tok2 t).url ∧
     (mkValidateTemplateRequest tok t).body = (mkValidateTemplateRequest tok2 t).body) := by
  simp [mkCreateTemplateRequest, mkGetTemplateRequest, mkUpdateTemplateRequest,
        mkDeleteTemplateRequest, mkGetTemplatesRequest, mkValidateTemplateRequest]

/-- C10: whenever an operation returns an error its accompanying value is
the Go zero value — Create returns id 0, Get and List return the nil
pointer/slice (`none`) — and conversely a successful Get always returns a
non-nil pointer (`some`). -/
theorem error_returns_zero_value (resp : HttpResponse) :
    ((createTemplateResponse resp).2.isSome = true →
        (createTemplateResponse resp).1 = 0) ∧
    ((getTemplateResponse resp).2.isSome = true →
        (getTemplateResponse resp).1 = none) ∧
    ((getTemplatesResponse resp).2.isSome = true →
        (getTemplatesResponse resp).1 = none) ∧
    ((getTemplateResponse resp).2 = none →
        ∃ t, (getTemplateResponse resp).1 = some t) := by
  by_cases hs : resp.statusCode = 200
  · refine ⟨?_, ?_, ?_, ?_⟩
    · rcases hd : decodeJsonBody decodePostmarkResponse resp.body with cause | pr
      · simp [createTemplateResponse, hs, hd]
      · by_cases he : pr.ErrorCode = 0 <;>
          simp [createTemplateResponse, hs, hd, he]
    · rcases hd : decodeJsonBody decodeTemplate resp.body with cause | tpl <;>
        simp [getTemplateResponse, hs, hd]
    · rcases hd : decodeJsonBody decodeTemplatesResponse resp.body with cause | tr <;>
        simp [getTemplatesResponse, hs, hd]
    · rcases hd : decodeJsonBody decodeTemplate resp.body with cause | tpl <;>
        simp [getTemplateResponse, hs, hd]
  · simp [createTemplateResponse, getTemplateResponse, getTemplatesResponse, hs]

theorem error_returns_zero_value_witness :
    (createTemplateResponse respUnprocessable).1 = 0 ∧
    (∃ t, (getTemplateResponse respGotTemplate).1 = some t) :=
  ⟨(error_returns_zero_value respUnprocessable).1 rfl,
   (error_returns_zero_value respGotTemplate).2.2.2 rfl⟩
